import Mathlib

/-!
# URL shortener: storage contract and save handler

A shallow embedding of

* `internal/storage/sqlite/sqlite.go`  (`New`, `SaveURL`, `GetURL`, `DeleteURL`)
* `internal/http-server/handlers/url/save/save.go`  (`New`)

The SQLite engine, `database/sql`, `fmt.Errorf` and `errors.Is` are library code.
They are modelled here by their documented behaviour on the statements the
repository issues: the table `url` is a list of rows in rowid order, the `UNIQUE`
constraint of the schema rejects an insert whose alias is present, and the
connection itself never fails (no I/O fault is modelled). The branches of the
source that handle such faults are kept in the embedding.

Methods of `*Storage` mutate the database behind the handle; here each of them
returns the database after the call next to its Go results.
-/

namespace UrlShortener

/-! ## Go errors -/

/-- Package-level error values created once with `errors.New`. Two of them are
equal exactly when they are the same variable. -/
inductive Sentinel where
  | storage_ErrURLNotFound
  | storage_ErrURLExists
  | sql_ErrNoRows
deriving DecidableEq, Repr

/-- The error values that occur in the two source files. -/
inductive GoError where
  /-- a package-level `errors.New` value -/
  | sentinel (s : Sentinel)
  /-- the result of `fmt.Errorf` with a format that has no `%w` verb: a fresh value
  carrying only its text, without `Unwrap` -/
  | errorf (text : String)
  /-- the result of `fmt.Errorf` with one `%w` verb: `head` is the text formatted before
  the wrapped error, `cause` is what `Unwrap` returns -/
  | wrapf (head : String) (cause : GoError)
  /-- a `sqlite3.Error` value with its `Code` and `ExtendedCode` -/
  | sqlite3 (code : Nat) (extendedCode : Nat)
deriving DecidableEq, Repr

/-- The loop of `errors.Is` for a sentinel target: compare, then follow `Unwrap`. -/
def GoError.is : GoError → Sentinel → Bool
  | .sentinel s, target => decide (s = target)
  | .errorf _, _ => false
  | .wrapf _ cause, target => cause.is target
  | .sqlite3 _ _, _ => false

/-- The call `errors.Is(err, target)` for a non-nil sentinel `target`; `none` is the nil error. -/
def errorsIs : Option GoError → Sentinel → Bool
  | none, _ => false
  | some err, target => err.is target

namespace storage

/-- Modelled from the spec: the package `internal/storage` is not part of the sources;
it declares the not-found domain error as a package-level value. -/
def ErrURLNotFound : GoError := .sentinel .storage_ErrURLNotFound

/-- Modelled from the spec: the package `internal/storage` is not part of the sources;
it declares the already-exists domain error as a package-level value. -/
def ErrURLExists : GoError := .sentinel .storage_ErrURLExists

end storage

namespace sql

/-- The value `sql.ErrNoRows` of `database/sql`. -/
def ErrNoRows : GoError := .sentinel .sql_ErrNoRows

end sql

/-! ## The table `url` and the statements run on it -/

/-- One row of the table created by `sqlite.New`:
`id INTEGER PRIMARY KEY, alias TEXT NOT NULL UNIQUE, url TEXT NOT NULL,
createdAt DATETIME NOT NULL DEFAULT CURRENT_TIMESTAMP,
updatedAt DATETIME NOT NULL DEFAULT CURRENT_TIMESTAMP`. -/
structure Row where
  id : Nat
  alias_ : String
  url : String
  createdAt : Nat
  updatedAt : Nat
deriving DecidableEq, Repr

/-- The database behind a `*sql.DB` handle: the rows of table `url`, oldest first. -/
structure DB where
  rows : List Row
deriving DecidableEq, Repr

/-- The statements the storage prepares or executes. -/
inductive Stmt where
  /-- the statement `CREATE TABLE IF NOT EXISTS url(...)` -/
  | createTable
  /-- the statement `INSERT INTO url(url, alias) VALUES (?, ?)` -/
  | insertURL
  /-- the statement `SELECT url FROM url WHERE alias = ?` -/
  | selectURL
  /-- the statement `DELETE FROM url WHERE alias = ?` -/
  | deleteURL
deriving DecidableEq, Repr

namespace sqlite3

/-- The primary result code `SQLITE_CONSTRAINT`. -/
def ErrConstraint : Nat := 19

/-- The extended result code `sqlite3.ErrConstraintUnique`, `ErrConstraint.Extend(8)`. -/
def ErrConstraintUnique : Nat := ErrConstraint + 8 * 256

end sqlite3

namespace DB

/-- The call `db.Prepare(query)`: compiling one of the statements above succeeds. -/
def Prepare (query : Stmt) : Except GoError Stmt := .ok query

/-- Executing `CREATE TABLE IF NOT EXISTS url(...)` on the file `onDisk`: a table that is
there is kept with its rows, a missing one is created empty. -/
def execCreateTable (onDisk : Option DB) : Except GoError DB := .ok (onDisk.getD ⟨[]⟩)

/-- The rowid SQLite gives to a row inserted without an `id`: one more than the largest
rowid in use, and 1 in an empty table. Rowids are natural numbers here, the 64-bit
ceiling of SQLite is not modelled. -/
def nextRowid (db : DB) : Nat := (db.rows.map Row.id).foldr max 0 + 1

/-- Executing `INSERT INTO url(url, alias) VALUES (?, ?)` at time `now`: the `UNIQUE`
constraint on `alias` fails the statement, leaving the table as it was; otherwise one row
is appended, both timestamps taking their default. -/
def execInsert (db : DB) (now : Nat) (url alias_ : String) : Except GoError DB :=
  if db.rows.any (fun r => r.alias_ == alias_) then
    .error (.sqlite3 sqlite3.ErrConstraint sqlite3.ErrConstraintUnique)
  else
    .ok ⟨db.rows ++ [⟨db.nextRowid, alias_, url, now, now⟩]⟩

/-- Running `SELECT url FROM url WHERE alias = ?` through `QueryRow(alias).Scan(&resURL)`:
the first matching row is scanned, and `sql.ErrNoRows` is the error when none matches. -/
def queryRowScan (db : DB) (alias_ : String) : Except GoError String :=
  match db.rows.find? (fun r => r.alias_ == alias_) with
  | some r => .ok r.url
  | none => .error sql.ErrNoRows

/-- Executing `DELETE FROM url WHERE alias = ?`: every matching row goes. -/
def execDelete (db : DB) (alias_ : String) : Except GoError DB :=
  .ok ⟨db.rows.filter (fun r => r.alias_ != alias_)⟩

end DB

/-! ## `internal/storage/sqlite` -/

namespace sqlite

/-- The type `Storage` of the source: a handle on the database. -/
structure Storage where
  db : DB
deriving DecidableEq, Repr

/-- The function `New(storagePath)`: `sql.Open` does not fail, `onDisk` is the table found
at `storagePath`, `none` when the file is new. Only the first statement of the prepared text, the `CREATE TABLE IF NOT EXISTS`,
decides the rows the storage starts with. -/
def New (onDisk : Option DB) : Except GoError Storage :=
  match DB.Prepare .createTable with
  | .error _ => .error (.errorf "#\x7bop\x7d: #\x7berr\x7d")
  | .ok _ =>
    match DB.execCreateTable onDisk with
    | .error _ => .error (.errorf "#\x7bop\x7d #\x7berr")
    | .ok db => .ok ⟨db⟩

/-- The method `(s *Storage) SaveURL(urlToSave, alias) error`, run at time `now`. -/
def SaveURL (s : Storage) (now : Nat) (urlToSave alias_ : String) : Option GoError × Storage :=
  let op := "storage.sqlite.SaveURL"
  match DB.Prepare .insertURL with
  | .error err => (some (.wrapf (op ++ ": ") err), s)
  | .ok _ =>
    match s.db.execInsert now urlToSave alias_ with
    | .error err =>
      match err with
      | .sqlite3 _ extendedCode =>
        if extendedCode = sqlite3.ErrConstraintUnique then
          (some (.errorf "#\x7bop\x7d: #\x7bstorage.ErrURLExists\x7d"), s)
        else
          (some (.wrapf (op ++ ": ") err), s)
      | _ => (some (.wrapf (op ++ ": ") err), s)
    | .ok db => (none, ⟨db⟩)

/-- The method `(s *Storage) GetURL(alias) (string, error)`. -/
def GetURL (s : Storage) (alias_ : String) : (String × Option GoError) × Storage :=
  let op := "storage.sqlite.GetUrl"
  match DB.Prepare .selectURL with
  | .error err => (("", some (.wrapf (op ++ ": ") err)), s)
  | .ok _ =>
    match s.db.queryRowScan alias_ with
    | .error err =>
      if errorsIs (some err) .sql_ErrNoRows then
        (("", some storage.ErrURLNotFound), s)
      else
        (("", some (.wrapf (op ++ ": execute statement: ") err)), s)
    | .ok resURL => ((resURL, none), s)

/-- The method `(s *Storage) DeleteURL(alias) (string, error)`. -/
def DeleteURL (s : Storage) (alias_ : String) : (String × Option GoError) × Storage :=
  let op := "storage.sqlite.DeleteUrl"
  match s.db.queryRowScan alias_ with
  | .error err =>
    if errorsIs (some err) .sql_ErrNoRows then
      (("", some storage.ErrURLNotFound), s)
    else
      (("", some (.wrapf (op ++ ": find URL: ") err)), s)
  | .ok resURL =>
    match s.db.execDelete alias_ with
    | .error err => (("", some (.wrapf (op ++ ": delete URL: ") err)), s)
    | .ok db => (("url %s deleted " ++ resURL, none), ⟨db⟩)

/-- One call on the storage. -/
inductive Call where
  | SaveURL (now : Nat) (urlToSave alias_ : String)
  | GetURL (alias_ : String)
  | DeleteURL (alias_ : String)
deriving DecidableEq, Repr

/-- The storage after one call, whatever the call returned. -/
def after (s : Storage) : Call → Storage
  | .SaveURL now urlToSave alias_ => (SaveURL s now urlToSave alias_).2
  | .GetURL alias_ => (GetURL s alias_).2
  | .DeleteURL alias_ => (DeleteURL s alias_).2

/-- The storage after a finite sequence of calls, first call first. -/
def run (s : Storage) (calls : List Call) : Storage := calls.foldl after s

end sqlite

/-! ## `internal/http-server/handlers/url/save` -/

namespace validator

/-- One entry of `validator.ValidationErrors`: the struct field and the tag that failed. -/
structure FieldError where
  field : String
  tag : String
deriving DecidableEq, Repr

end validator

namespace response

/-- Modelled from the spec: the package `internal/lib/api/response` is not part of the
sources; a response body has a status and, for an error, a message. -/
structure Response where
  status : String
  message : String
deriving DecidableEq, Repr

/-- Modelled from the spec: `response.OK()` is missing from the sources; it is the body
with status "ok" and no message. -/
def OK : Response := ⟨"ok", ""⟩

/-- Modelled from the spec: `response.Error(msg)` is missing from the sources; it is the
body with status "error" and the given message. -/
def Error (msg : String) : Response := ⟨"error", msg⟩

/-- Modelled from the spec: `response.ValidationError(errs)` is missing from the sources;
it is an error body reporting the failing fields. The spec fixes no wording, the text
chosen here lists field and tag. -/
def ValidationError (errs : List validator.FieldError) : Response :=
  Error (String.intercalate ", " (errs.map (fun e => e.field ++ ": " ++ e.tag)))

end response

namespace save

/-- The type `Request` of the source. -/
structure Request where
  URL : String
  Alias : String
deriving DecidableEq, Repr

set_option linter.dupNamespace false in
/-- The type `Response` of the source: the embedded `response.Response` and the alias. -/
structure Response where
  Response : response.Response
  Alias : String
deriving DecidableEq, Repr

/-- The interface `URLSaver` of the source, over implementations with state `σ`: the
method returns its error and the state it leaves. -/
structure URLSaver (σ : Type) where
  SaveURL : σ → String → String → Option GoError × σ

/-- The constant `aliasLength` of the source. -/
def aliasLength : Nat := 8

/-- What the handler hands to `render.JSON`: a bare `response.Response` on the error
paths, a `save.Response` on the last path. -/
inductive Rendered where
  | plain (body : response.Response)
  | saved (body : Response)
deriving DecidableEq, Repr

/-- The call `validator.New().Struct(req)` on a `Request`: the only tag is `required` on `URL`, which
fails on the empty string. The empty list is the nil error. -/
def validateStruct (req : Request) : List validator.FieldError :=
  if req.URL = "" then [⟨"URL", "required"⟩] else []

/-- The handler returned by `New(log, urlSaver, domain)`, run on one request.
`decoded` is the outcome of `render.DecodeJSON(r.Body, &req)`, `NewRandomString` stands for
`random.NewRandomString`, whose package is not part of the sources, and `st` is the state of
the `urlSaver` when the request arrives. Logging is left out. -/
def New {σ : Type} (urlSaver : URLSaver σ) (domain : String)
    (NewRandomString : Nat → Except GoError String)
    (st : σ) (decoded : Except GoError Request) : Rendered × σ :=
  match decoded with
  | .error _ => (.plain (response.Error "failed to decode request"), st)
  | .ok req =>
    match validateStruct req with
    | validateErr :: more => (.plain (response.ValidationError (validateErr :: more)), st)
    | [] =>
      match (if req.Alias = "" then NewRandomString aliasLength else .ok req.Alias) with
      | .error _ => (.plain (response.Error "internal server error"), st)
      | .ok alias_ =>
        match urlSaver.SaveURL st req.URL alias_ with
        | (err, st1) =>
          if errorsIs err .storage_ErrURLExists then
            (.plain (response.Error "url already exists"), st1)
          else
            (.saved ⟨response.OK, domain ++ alias_⟩, st1)

/-- The `*sqlite.Storage` as a `URLSaver`, its inserts stamped with time `now`. -/
def storageSaver (now : Nat) : URLSaver sqlite.Storage :=
  ⟨fun s urlToSave alias_ => sqlite.SaveURL s now urlToSave alias_⟩

end save

end UrlShortener

/-! ## Lemmas on the table -/

namespace UrlShortener

theorem any_alias_eq_false (rows : List Row) (a : String)
    (h : ∀ r ∈ rows, r.alias_ ≠ a) : rows.any (fun r => r.alias_ == a) = false := by
  rw [List.any_eq_false]
  intro r hr
  simpa using h r hr

theorem any_alias_eq_true (rows : List Row) (a : String)
    (h : ∃ r ∈ rows, r.alias_ = a) : rows.any (fun r => r.alias_ == a) = true := by
  rw [List.any_eq_true]
  obtain ⟨r, hr, hra⟩ := h
  exact ⟨r, hr, by simpa using hra⟩

theorem find_alias_eq_none (rows : List Row) (a : String)
    (h : ∀ r ∈ rows, r.alias_ ≠ a) : rows.find? (fun r => r.alias_ == a) = none := by
  rw [List.find?_eq_none]
  intro r hr
  simpa using h r hr

theorem find_alias_filter_ne (rows : List Row) (a b : String) (hab : b ≠ a) :
    (rows.filter (fun r => r.alias_ != a)).find? (fun r => r.alias_ == b)
      = rows.find? (fun r => r.alias_ == b) := by
  induction rows with
  | nil => rfl
  | cons r rest ih =>
    by_cases hra : r.alias_ = a
    · have hrb : (r.alias_ == b) = false := by
        simpa using fun h : r.alias_ = b => hab (h ▸ hra)
      have hdrop : (r.alias_ != a) = false := by simpa using hra
      simp only [List.filter_cons, List.find?_cons, hrb, hdrop, Bool.false_eq_true, if_false]
      exact ih
    · have hkeep : (r.alias_ != a) = true := by simpa using hra
      cases hrb : (r.alias_ == b)
      · simp only [List.filter_cons, List.find?_cons, hrb, hkeep, if_true]
        exact ih
      · simp only [List.filter_cons, List.find?_cons, hrb, hkeep, if_true]

namespace sqlite

theorem SaveURL_unused (s : Storage) (now : Nat) (u a : String)
    (h : ∀ r ∈ s.db.rows, r.alias_ ≠ a) :
    SaveURL s now u a = (none, ⟨⟨s.db.rows ++ [⟨s.db.nextRowid, a, u, now, now⟩]⟩⟩) := by
  simp [SaveURL, DB.Prepare, DB.execInsert, any_alias_eq_false s.db.rows a h]

theorem SaveURL_used (s : Storage) (now : Nat) (u a : String)
    (h : ∃ r ∈ s.db.rows, r.alias_ = a) :
    SaveURL s now u a
      = (some (.errorf "#\x7bop\x7d: #\x7bstorage.ErrURLExists\x7d"), s) := by
  simp [SaveURL, DB.Prepare, DB.execInsert, any_alias_eq_true s.db.rows a h]

theorem GetURL_eq (s : Storage) (a : String) :
    GetURL s a =
      (match s.db.rows.find? (fun r => r.alias_ == a) with
        | some r => ((r.url, none), s)
        | none => (("", some storage.ErrURLNotFound), s)) := by
  unfold GetURL DB.Prepare DB.queryRowScan
  cases s.db.rows.find? (fun r => r.alias_ == a) <;>
    simp [errorsIs, GoError.is, sql.ErrNoRows]

theorem DeleteURL_eq (s : Storage) (a : String) :
    DeleteURL s a =
      (match s.db.rows.find? (fun r => r.alias_ == a) with
        | some r => (("url %s deleted " ++ r.url, none),
            ⟨⟨s.db.rows.filter (fun r => r.alias_ != a)⟩⟩)
        | none => (("", some storage.ErrURLNotFound), s)) := by
  unfold DeleteURL DB.queryRowScan DB.execDelete
  cases s.db.rows.find? (fun r => r.alias_ == a) <;>
    simp [errorsIs, GoError.is, sql.ErrNoRows]

end sqlite

end UrlShortener

/-! ## The storage contract -/

namespace UrlShortener

theorem filter_alias_ne_nodup (rows : List Row) (a : String)
    (h : (rows.map Row.alias_).Nodup) :
    ((rows.filter (fun r => r.alias_ != a)).map Row.alias_).Nodup :=
  h.sublist ((List.filter_sublist rows).map Row.alias_)

theorem after_keeps_alias_nodup (s : sqlite.Storage) (c : sqlite.Call)
    (h : (s.db.rows.map Row.alias_).Nodup) :
    ((sqlite.after s c).db.rows.map Row.alias_).Nodup := by
  cases c with
  | SaveURL now u a =>
    by_cases hused : ∃ r ∈ s.db.rows, r.alias_ = a
    · simpa [sqlite.after, sqlite.SaveURL_used s now u a hused] using h
    · have hunused : ∀ r ∈ s.db.rows, r.alias_ ≠ a := fun r hr hra => hused ⟨r, hr, hra⟩
      have hnotin : a ∉ s.db.rows.map Row.alias_ := by
        intro hmem
        obtain ⟨r, hr, hra⟩ := List.mem_map.mp hmem
        exact hunused r hr hra
      simp only [sqlite.after, sqlite.SaveURL_unused s now u a hunused, List.map_append,
        List.map_cons, List.map_nil]
      exact List.Nodup.append h (List.nodup_singleton a)
        (by
          intro x hx hx1
          rw [List.mem_singleton] at hx1
          exact hnotin (hx1 ▸ hx))
  | GetURL a =>
    rw [sqlite.after, sqlite.GetURL_eq]
    cases s.db.rows.find? (fun r => r.alias_ == a) <;> exact h
  | DeleteURL a =>
    rw [sqlite.after, sqlite.DeleteURL_eq]
    cases s.db.rows.find? (fun r => r.alias_ == a) with
    | none => exact h
    | some r => exact filter_alias_ne_nodup s.db.rows a h

theorem run_keeps_alias_nodup (calls : List sqlite.Call) (s : sqlite.Storage)
    (h : (s.db.rows.map Row.alias_).Nodup) :
    ((sqlite.run s calls).db.rows.map Row.alias_).Nodup := by
  induction calls generalizing s with
  | nil => exact h
  | cons c rest ih => exact ih (sqlite.after s c) (after_keeps_alias_nodup s c h)

/-- C1: for every store, URL `u` and alias `a` that no row of the store uses, `SaveURL(u, a)`
returns the nil error and the `GetURL(a)` that follows returns `u` with the nil error. -/
theorem saveURL_then_getURL_returns_url (s : sqlite.Storage) (now : Nat) (u a : String)
    (hunused : ∀ r ∈ s.db.rows, r.alias_ ≠ a) :
    (sqlite.SaveURL s now u a).1 = none ∧
      (sqlite.GetURL (sqlite.SaveURL s now u a).2 a).1 = (u, none) := by
  rw [sqlite.SaveURL_unused s now u a hunused]
  refine ⟨rfl, ?_⟩
  rw [sqlite.GetURL_eq]
  simp [List.find?_append, find_alias_eq_none _ _ hunused]

theorem saveURL_then_getURL_returns_url_witness :
    (∀ r ∈ [(⟨1, "docs", "https://go.dev/doc", 3, 3⟩ : Row)], r.alias_ ≠ "abc123") ∧
      (sqlite.SaveURL ⟨⟨[⟨1, "docs", "https://go.dev/doc", 3, 3⟩]⟩⟩ 5
          "https://example.com" "abc123").1 = none ∧
      (sqlite.GetURL (sqlite.SaveURL ⟨⟨[⟨1, "docs", "https://go.dev/doc", 3, 3⟩]⟩⟩ 5
          "https://example.com" "abc123").2 "abc123").1 = ("https://example.com", none) :=
  ⟨by decide,
    saveURL_then_getURL_returns_url ⟨⟨[⟨1, "docs", "https://go.dev/doc", 3, 3⟩]⟩⟩ 5
      "https://example.com" "abc123" (by decide)⟩

/-- C2 (what the code does): on a store that holds alias "abc123", `SaveURL` with that alias
returns an error made from the literal text of its format string, `errors.Is` of that error
and `storage.ErrURLExists` is false, and the store and the stored URL are left as they were. -/
theorem saveURL_used_alias_error_is_not_ErrURLExists :
    (sqlite.SaveURL ⟨⟨[⟨1, "abc123", "https://example.com", 5, 5⟩]⟩⟩ 6
        "https://other.example" "abc123").1
        = some (.errorf "#\x7bop\x7d: #\x7bstorage.ErrURLExists\x7d") ∧
      errorsIs (sqlite.SaveURL ⟨⟨[⟨1, "abc123", "https://example.com", 5, 5⟩]⟩⟩ 6
        "https://other.example" "abc123").1 .storage_ErrURLExists = false ∧
      (sqlite.SaveURL ⟨⟨[⟨1, "abc123", "https://example.com", 5, 5⟩]⟩⟩ 6
        "https://other.example" "abc123").2
        = ⟨⟨[⟨1, "abc123", "https://example.com", 5, 5⟩]⟩⟩ ∧
      (sqlite.GetURL (sqlite.SaveURL ⟨⟨[⟨1, "abc123", "https://example.com", 5, 5⟩]⟩⟩ 6
        "https://other.example" "abc123").2 "abc123").1 = ("https://example.com", none) := by
  decide

/-- C5 (what the code does): on a store holding ("abc123", "https://example.com"),
`GetURL` returns the URL and `DeleteURL` succeeds but returns the URL behind the literal
text "url %s deleted ", which is not the stored URL. -/
theorem deleteURL_returns_templated_text :
    (sqlite.GetURL ⟨⟨[⟨1, "abc123", "https://example.com", 5, 5⟩]⟩⟩ "abc123").1
        = ("https://example.com", none) ∧
      (sqlite.DeleteURL ⟨⟨[⟨1, "abc123", "https://example.com", 5, 5⟩]⟩⟩ "abc123").1
        = ("url %s deleted https://example.com", none) ∧
      (sqlite.DeleteURL ⟨⟨[⟨1, "abc123", "https://example.com", 5, 5⟩]⟩⟩ "abc123").1.1
        ≠ "https://example.com" := by
  decide

/-- C6: for every store and alias `a` that no row uses, `GetURL(a)` and `DeleteURL(a)` both
return the empty string with `storage.ErrURLNotFound`, `errors.Is` holds of the returned
error and that value, and the store is the one before the call. -/
theorem getURL_deleteURL_unused_alias_not_found (s : sqlite.Storage) (a : String)
    (hunused : ∀ r ∈ s.db.rows, r.alias_ ≠ a) :
    sqlite.GetURL s a = (("", some storage.ErrURLNotFound), s) ∧
      sqlite.DeleteURL s a = (("", some storage.ErrURLNotFound), s) ∧
      errorsIs (sqlite.GetURL s a).1.2 .storage_ErrURLNotFound = true ∧
      errorsIs (sqlite.DeleteURL s a).1.2 .storage_ErrURLNotFound = true := by
  have hget : sqlite.GetURL s a = (("", some storage.ErrURLNotFound), s) := by
    rw [sqlite.GetURL_eq, find_alias_eq_none _ _ hunused]
  have hdel : sqlite.DeleteURL s a = (("", some storage.ErrURLNotFound), s) := by
    rw [sqlite.DeleteURL_eq, find_alias_eq_none _ _ hunused]
  refine ⟨hget, hdel, ?_, ?_⟩
  · rw [hget]; rfl
  · rw [hdel]; rfl

theorem getURL_deleteURL_unused_alias_not_found_witness :
    (∀ r ∈ [(⟨1, "docs", "https://go.dev/doc", 3, 3⟩ : Row)], r.alias_ ≠ "abc123") ∧
      sqlite.GetURL ⟨⟨[⟨1, "docs", "https://go.dev/doc", 3, 3⟩]⟩⟩ "abc123"
        = (("", some storage.ErrURLNotFound), ⟨⟨[⟨1, "docs", "https://go.dev/doc", 3, 3⟩]⟩⟩) ∧
      sqlite.DeleteURL ⟨⟨[⟨1, "docs", "https://go.dev/doc", 3, 3⟩]⟩⟩ "abc123"
        = (("", some storage.ErrURLNotFound), ⟨⟨[⟨1, "docs", "https://go.dev/doc", 3, 3⟩]⟩⟩) ∧
      errorsIs (sqlite.GetURL ⟨⟨[⟨1, "docs", "https://go.dev/doc", 3, 3⟩]⟩⟩ "abc123").1.2
        .storage_ErrURLNotFound = true ∧
      errorsIs (sqlite.DeleteURL ⟨⟨[⟨1, "docs", "https://go.dev/doc", 3, 3⟩]⟩⟩ "abc123").1.2
        .storage_ErrURLNotFound = true :=
  ⟨by decide,
    getURL_deleteURL_unused_alias_not_found ⟨⟨[⟨1, "docs", "https://go.dev/doc", 3, 3⟩]⟩⟩
      "abc123" (by decide)⟩

/-- C7: for every store and alias `a`, if `DeleteURL(a)` returns the nil error then the
`GetURL(a)` that follows returns the empty string with `storage.ErrURLNotFound`. -/
theorem getURL_after_deleteURL_not_found (s : sqlite.Storage) (a : String)
    (hok : (sqlite.DeleteURL s a).1.2 = none) :
    (sqlite.GetURL (sqlite.DeleteURL s a).2 a).1 = ("", some storage.ErrURLNotFound) := by
  rw [sqlite.DeleteURL_eq] at hok ⊢
  cases hfind : s.db.rows.find? (fun r => r.alias_ == a) with
  | none =>
    rw [hfind] at hok
    exact absurd hok (by simp)
  | some r =>
    have hgone : ∀ x ∈ s.db.rows.filter (fun r => r.alias_ != a), x.alias_ ≠ a := by
      intro x hx
      simpa using (List.mem_filter.mp hx).2
    simp only [sqlite.GetURL_eq]
    rw [find_alias_eq_none _ _ hgone]

theorem getURL_after_deleteURL_not_found_witness :
    (sqlite.DeleteURL ⟨⟨[⟨1, "abc123", "https://example.com", 5, 5⟩]⟩⟩ "abc123").1.2 = none ∧
      (sqlite.GetURL (sqlite.DeleteURL ⟨⟨[⟨1, "abc123", "https://example.com", 5, 5⟩]⟩⟩
        "abc123").2 "abc123").1 = ("", some storage.ErrURLNotFound) :=
  ⟨by decide,
    getURL_after_deleteURL_not_found ⟨⟨[⟨1, "abc123", "https://example.com", 5, 5⟩]⟩⟩
      "abc123" (by decide)⟩

/-- C8: `sqlite.New` on a new file succeeds with an empty store, and after any finite
sequence of `SaveURL`, `GetURL` and `DeleteURL` calls on it, failed ones included, no two
rows of the store have the same alias. -/
theorem alias_unique_after_any_calls (calls : List sqlite.Call) :
    ∃ s0 : sqlite.Storage, sqlite.New none = .ok s0 ∧ s0.db.rows = [] ∧
      ((sqlite.run s0 calls).db.rows.map Row.alias_).Nodup :=
  ⟨⟨⟨[]⟩⟩, rfl, rfl, run_keeps_alias_nodup calls ⟨⟨[]⟩⟩ List.nodup_nil⟩

/-- C10: `DeleteURL(a)` leaves exactly the rows whose alias differs from `a`, in their order;
for every alias `b` other than `a`, `GetURL(b)` returns after `DeleteURL(a)` what it returned
before; and a `GetURL` call leaves the store as it was. -/
theorem deleteURL_getURL_frame (s : sqlite.Storage) (a b : String) (hne : b ≠ a) :
    (sqlite.DeleteURL s a).2.db.rows = s.db.rows.filter (fun r => r.alias_ != a) ∧
      (sqlite.GetURL (sqlite.DeleteURL s a).2 b).1 = (sqlite.GetURL s b).1 ∧
      (∀ c : String, (sqlite.GetURL s c).2 = s) := by
  have hrows : (sqlite.DeleteURL s a).2.db.rows
      = s.db.rows.filter (fun r => r.alias_ != a) := by
    rw [sqlite.DeleteURL_eq]
    cases hfind : s.db.rows.find? (fun r => r.alias_ == a) with
    | some r => rfl
    | none =>
      symm
      rw [List.filter_eq_self]
      intro x hx
      simpa using List.find?_eq_none.mp hfind x hx
  refine ⟨hrows, ?_, ?_⟩
  · rw [sqlite.GetURL_eq, sqlite.GetURL_eq, hrows, find_alias_filter_ne _ _ _ hne]
    cases s.db.rows.find? (fun r => r.alias_ == b) <;> rfl
  · intro c
    rw [sqlite.GetURL_eq]
    cases s.db.rows.find? (fun r => r.alias_ == c) <;> rfl

theorem deleteURL_getURL_frame_witness :
    "docs" ≠ "abc123" ∧
      (sqlite.DeleteURL
          ⟨⟨[⟨1, "abc123", "https://example.com", 5, 5⟩, ⟨2, "docs", "https://go.dev/doc", 6, 6⟩]⟩⟩
          "abc123").2.db.rows
        = [⟨2, "docs", "https://go.dev/doc", 6, 6⟩] ∧
      (sqlite.GetURL (sqlite.DeleteURL
          ⟨⟨[⟨1, "abc123", "https://example.com", 5, 5⟩, ⟨2, "docs", "https://go.dev/doc", 6, 6⟩]⟩⟩
          "abc123").2 "docs").1
        = (sqlite.GetURL
          ⟨⟨[⟨1, "abc123", "https://example.com", 5, 5⟩, ⟨2, "docs", "https://go.dev/doc", 6, 6⟩]⟩⟩
          "docs").1 :=
  ⟨by decide, by decide,
    (deleteURL_getURL_frame
      ⟨⟨[⟨1, "abc123", "https://example.com", 5, 5⟩, ⟨2, "docs", "https://go.dev/doc", 6, 6⟩]⟩⟩
      "abc123" "docs" (by decide)).2.1⟩

end UrlShortener

/-! ## The save handler -/

namespace UrlShortener

/-- C3 (what the code does): over the sqlite storage holding alias "abc123", the handler
answers the valid request with url "https://other.example" and alias "abc123" with the ok
response carrying alias "http://localhost:8082/abc123", not with the error response
"url already exists"; the store keeps its one row. -/
theorem save_handler_used_alias_responds_ok :
    save.New (save.storageSaver 6) "http://localhost:8082/" (fun _ => .ok "Xy12Ab34")
        ⟨⟨[⟨1, "abc123", "https://example.com", 5, 5⟩]⟩⟩
        (.ok ⟨"https://other.example", "abc123"⟩)
        = (.saved ⟨response.OK, "http://localhost:8082/abc123"⟩,
            ⟨⟨[⟨1, "abc123", "https://example.com", 5, 5⟩]⟩⟩) ∧
      (save.New (save.storageSaver 6) "http://localhost:8082/" (fun _ => .ok "Xy12Ab34")
        ⟨⟨[⟨1, "abc123", "https://example.com", 5, 5⟩]⟩⟩
        (.ok ⟨"https://other.example", "abc123"⟩)).1
        ≠ .plain (response.Error "url already exists") := by
  decide

/-- C4 (what the code does): with a `URLSaver` whose `SaveURL` returns a wrapped SQLite I/O
error, the handler answers the valid request with url "https://example.com" and alias
"abc123" with the ok response carrying alias "http://localhost:8082/abc123". -/
theorem save_handler_swallows_storage_failure :
    ((⟨fun st _ _ => (some (.wrapf "storage.sqlite.SaveURL: " (.sqlite3 10 266)), st)⟩ :
        save.URLSaver Unit).SaveURL () "https://example.com" "abc123").1 ≠ none ∧
      (save.New
        (⟨fun st _ _ => (some (.wrapf "storage.sqlite.SaveURL: " (.sqlite3 10 266)), st)⟩ :
          save.URLSaver Unit)
        "http://localhost:8082/" (fun _ => .ok "Xy12Ab34") ()
        (.ok ⟨"https://example.com", "abc123"⟩)).1
        = .saved ⟨response.OK, "http://localhost:8082/abc123"⟩ := by
  decide

/-- C9: for every `URLSaver`, domain, generator and decoded request with a non-empty `URL`,
let `al` be the request's alias when that is non-empty and otherwise the string the
generator returns for length 8. If `SaveURL(req.URL, al)` returns the nil error, the handler
makes exactly that call and answers with the ok response whose alias is `domain ++ al`. -/
theorem save_handler_ok_alias_is_domain_plus_alias {σ : Type} (urlSaver : save.URLSaver σ)
    (domain : String) (NewRandomString : Nat → Except GoError String) (st : σ)
    (req : save.Request) (al : String)
    (hvalid : req.URL ≠ "")
    (halias : (req.Alias ≠ "" ∧ al = req.Alias) ∨
      (req.Alias = "" ∧ NewRandomString 8 = .ok al))
    (hsaved : (urlSaver.SaveURL st req.URL al).1 = none) :
    save.New urlSaver domain NewRandomString st (.ok req)
      = (.saved ⟨response.OK, domain ++ al⟩, (urlSaver.SaveURL st req.URL al).2) := by
  have hchosen :
      (if req.Alias = "" then NewRandomString save.aliasLength else .ok req.Alias)
        = .ok al := by
    rcases halias with ⟨hne, hal⟩ | ⟨hempty, hgen⟩
    · rw [if_neg hne, hal]
    · rw [if_pos hempty]
      exact hgen
  unfold save.New
  simp only [save.validateStruct, if_neg hvalid, hchosen, hsaved, errorsIs]
  rfl

theorem save_handler_ok_alias_is_domain_plus_alias_witness :
    "https://example.com" ≠ "" ∧
      ((fun n => .ok (String.mk (List.replicate n 'k'))) : Nat → Except GoError String) 8
        = .ok "kkkkkkkk" ∧
      save.New (⟨fun st u a => (none, st ++ [(u, a)])⟩ : save.URLSaver (List (String × String)))
        "http://localhost:8082/" (fun n => .ok (String.mk (List.replicate n 'k'))) []
        (.ok ⟨"https://example.com", ""⟩)
      = (.saved ⟨response.OK, "http://localhost:8082/" ++ "kkkkkkkk"⟩,
          ((⟨fun st u a => (none, st ++ [(u, a)])⟩ :
            save.URLSaver (List (String × String))).SaveURL []
              "https://example.com" "kkkkkkkk").2) :=
  ⟨by decide, rfl,
    save_handler_ok_alias_is_domain_plus_alias
      (⟨fun st u a => (none, st ++ [(u, a)])⟩ : save.URLSaver (List (String × String)))
      "http://localhost:8082/" (fun n => .ok (String.mk (List.replicate n 'k'))) []
      ⟨"https://example.com", ""⟩ "kkkkkkkk" (by decide) (Or.inr ⟨rfl, rfl⟩) rfl⟩

end UrlShortener
